import Mathlib

/-!
Verification of the id-scanner coordinate mapper and detection debounce
logic.  The definitions below are shallow embeddings of the TypeScript
source: JavaScript numbers are modelled as rationals, integer pixel
values as integers, and the mutable detection refs of the camera screen
as an explicit state record that the detection callbacks transform.
-/

/-- Rounding as performed by JavaScript Math.round: half-up, i.e. the
floor of the argument plus one half. -/
def jround (q : ℚ) : ℤ := ⌊q + 1/2⌋

/-- Fallback as performed by the JavaScript or-operator on numbers:
a zero first operand selects the second. -/
def orFallback (a b : ℚ) : ℚ := if a = 0 then b else a

/-- Resize mode of the camera preview, as accepted by CameraOverlayCrop. -/
inductive ResizeMode where
  | cover
  | contain
deriving DecidableEq, Repr

/-- Normalized rectangle of interest, the RectPercentage prop of
CameraOverlayCrop. -/
structure RectPct where
  x1 : ℚ
  y1 : ℚ
  x2 : ℚ
  y2 : ℚ
deriving DecidableEq, Repr

/-- Integer crop region handed to the image-crop collaborators. -/
structure CropRegion where
  originX : ℤ
  originY : ℤ
  width : ℤ
  height : ℤ
deriving DecidableEq, Repr

/-- Crop region with unrounded components, as returned by the
calculateCropRegion helper of the IDScanner screen, whose width and
height fields are computed from an unrounded coordinate and may be
fractional. -/
structure CropRegionQ where
  originX : ℚ
  originY : ℚ
  width : ℚ
  height : ℚ
deriving DecidableEq, Repr

/-- Clamping of one rectangle component to the unit interval, from the
rect memo of CameraOverlayCrop. -/
def clamp01 (v : ℚ) : ℚ := max 0 (min v 1)

/-- Normalization performed by the rect memo of CameraOverlayCrop:
each component is clamped to the unit interval and the corners are
reordered. -/
def normRect (r : RectPct) : RectPct :=
  let x1 := clamp01 r.x1
  let y1 := clamp01 r.y1
  let x2 := clamp01 r.x2
  let y2 := clamp01 r.y2
  { x1 := min x1 x2
    y1 := min y1 y2
    x2 := max x1 x2
    y2 := max y1 y2 }

/-- Preview scale used by grabImage in CameraOverlayCrop: the maximal
viewport-per-sensor ratio for cover, the minimal one for contain. -/
def grabScale (m : ResizeMode) (pw ph vw vh : ℚ) : ℚ :=
  match m with
  | .cover => max (vw / pw) (vh / ph)
  | .contain => min (vw / pw) (vh / ph)

/-- Crop-region computation of grabImage in CameraOverlayCrop.
The photo dimensions are naturals, the camera layout is measured in
rational UI pixels (zero meaning unmeasured, replaced by the photo
dimension through the or-fallback), and the rectangle of interest is a
normalized rectangle. -/
def grabImageCropRegion (pw ph : ℕ) (lw lh : ℚ) (r : RectPct)
    (m : ResizeMode) : CropRegion :=
  let previewW := orFallback lw (pw : ℚ)
  let previewH := orFallback lh (ph : ℚ)
  let scale := grabScale m (pw : ℚ) (ph : ℚ) previewW previewH
  let visibleW := (pw : ℚ) * scale
  let visibleH := (ph : ℚ) * scale
  let offsetX := (previewW - visibleW) / 2
  let offsetY := (previewH - visibleH) / 2
  let rawX := (r.x1 * previewW - offsetX) / scale
  let rawY := (r.y1 * previewH - offsetY) / scale
  let rawW := ((r.x2 - r.x1) * previewW) / scale
  let rawH := ((r.y2 - r.y1) * previewH) / scale
  let originX : ℤ := max 0 (min (jround rawX) ((pw : ℤ) - 1))
  let originY : ℤ := max 0 (min (jround rawY) ((ph : ℤ) - 1))
  { originX := originX
    originY := originY
    width := min (jround rawW) ((pw : ℤ) - originX)
    height := min (jround rawH) ((ph : ℤ) - originY) }

/-- Crop-math helper calculateCropRegion of the IDScanner screen.
All inputs are JavaScript numbers; the origins are rounded but the
width and height are the minimum of an unrounded remainder and a
rounded extent, hence the rational-valued result record. -/
def calculateCropRegion (photoWidth photoHeight previewWidth previewHeight
    frameX frameY frameWidth frameHeight : ℚ) : CropRegionQ :=
  let screenAspect := previewWidth / previewHeight
  let photoAspect := photoWidth / photoHeight
  let s : ℚ × ℚ × ℚ × ℚ :=
    if screenAspect < photoAspect then
      let sY := photoHeight / previewHeight
      let visiblePhotoWidth := previewWidth * sY
      (sY, sY, (photoWidth - visiblePhotoWidth) / 2, 0)
    else
      let sX := photoWidth / previewWidth
      let visiblePhotoHeight := previewHeight * sX
      (sX, sX, 0, (photoHeight - visiblePhotoHeight) / 2)
  let cropX := s.2.2.1 + frameX * s.1
  let cropY := s.2.2.2 + frameY * s.2.1
  let cropWidth := frameWidth * s.1
  let cropHeight := frameHeight * s.2.1
  { originX := max 0 ((jround cropX : ℚ))
    originY := max 0 ((jround cropY : ℚ))
    width := min (photoWidth - cropX) ((jround cropWidth : ℚ))
    height := min (photoHeight - cropY) ((jround cropHeight : ℚ)) }

/-- Sensor pixels advanced per viewport pixel by the grabImage mapping,
the reciprocal of the preview scale. -/
def sensorPerViewport (m : ResizeMode) (pw ph vw vh : ℚ) : ℚ :=
  1 / grabScale m pw ph vw vh

/-- Horizontal viewport-to-sensor mapping of grabImage: the viewport
coordinate minus the centering offset, divided by the preview scale. -/
def grabMapX (m : ResizeMode) (pw ph vw vh x : ℚ) : ℚ :=
  let scale := grabScale m pw ph vw vh
  let offsetX := (vw - pw * scale) / 2
  (x - offsetX) / scale

/-- Detection phase reported by the VisionCropCamera screen. -/
inductive DetectionPhase where
  | scanning
  | holding
  | ready
deriving DecidableEq, Repr

/-- Mutable detection refs of the VisionCropCamera screen, gathered into
one state record: the in-flight capture guard, the displayed phase, and
the two millisecond timestamps. -/
structure DetState where
  isCapturing : Bool
  phase : DetectionPhase
  holdStartTime : Option ℤ
  lastDetectionTime : Option ℤ
deriving DecidableEq, Repr

/-- Hold-steady duration constant of VisionCropCamera. -/
def HOLD_DURATION_MS : ℤ := 1000

/-- Detection grace-period constant of VisionCropCamera. -/
def DETECTION_GRACE_MS : ℤ := 300

/-- Elapsed value computed by onDetectionMissed: the current time minus
the last detection time, the latter defaulting to zero through the
JavaScript or-operator. -/
def missedElapsed (s : DetState) (now : ℤ) : ℤ :=
  now - s.lastDetectionTime.getD 0

/-- Callback onDetectionSuccess of VisionCropCamera: ignored while a
capture is in flight; otherwise records the detection time, starts the
hold timer when absent, and promotes to ready once the hold duration
has elapsed. -/
def onDetectionSuccess (s : DetState) (now : ℤ) : DetState :=
  if s.isCapturing then s
  else
    let s1 := { s with lastDetectionTime := some now }
    match s1.holdStartTime with
    | none => { s1 with holdStartTime := some now, phase := .holding }
    | some h =>
      if HOLD_DURATION_MS ≤ now - h then { s1 with phase := .ready } else s1

/-- Callback onDetectionMissed of VisionCropCamera: ignored while a
capture is in flight or while no hold is running; otherwise clears the
hold and returns to scanning once the grace period has elapsed since
the last detection. -/
def onDetectionMissed (s : DetState) (now : ℤ) : DetState :=
  if s.isCapturing then s
  else
    match s.holdStartTime with
    | none => s
    | some _ =>
      if DETECTION_GRACE_MS ≤ missedElapsed s now then
        { s with holdStartTime := none, lastDetectionTime := none,
                 phase := .scanning }
      else s

/-- Combined step of the detection state: a matched frame runs the
success callback, an unmatched frame the missed callback. -/
def detStep (s : DetState) (matched : Bool) (now : ℤ) : DetState :=
  if matched then onDetectionSuccess s now else onDetectionMissed s now

/-- Reset performed by the finally block of takeAndCropPhoto: the
capture guard is cleared, the phase returns to scanning and both
timers are cleared. -/
def resetDetection (s : DetState) : DetState :=
  { s with isCapturing := false, phase := .scanning,
           holdStartTime := none, lastDetectionTime := none }

/-- Initial detection state of a scanning session. -/
def initialDetState : DetState :=
  { isCapturing := false, phase := .scanning,
    holdStartTime := none, lastDetectionTime := none }

/-- Detection state after a list of timestamped boolean events. -/
def runEvents (s : DetState) (evs : List (Bool × ℤ)) : DetState :=
  evs.foldl (fun t e => detStep t e.1 e.2) s

/-- Screen state owned by the VisionCropCamera controller around the
detection state: camera availability, the review image flag and the
camera-active flag. -/
structure ControllerState where
  cameraPresent : Bool
  det : DetState
  croppedImage : Bool
  isCameraActive : Bool
deriving DecidableEq, Repr

/-- Capture routine takeAndCropPhoto of VisionCropCamera, modelled with
the capture outcome supplied as a boolean, returning the new state and
the number of capture invocations performed: a missing camera or a
set in-flight guard short-circuits with no capture; otherwise exactly
one capture runs, a success stores the review image and deactivates
the camera, and the finally block resets the detection state. -/
def takeAndCropPhoto (c : ControllerState) (captureSucceeds : Bool) :
    ControllerState × ℕ :=
  if c.cameraPresent = false ∨ c.det.isCapturing = true then (c, 0)
  else
    let afterTry :=
      if captureSucceeds then
        { c with croppedImage := true, isCameraActive := false }
      else c
    ({ afterTry with det := resetDetection afterTry.det }, 1)

/-- Auto-capture effect of VisionCropCamera: the capture routine runs
only when the phase is ready, no review image is shown and no capture
is in flight. -/
def autoCaptureEffect (c : ControllerState) (captureSucceeds : Bool) :
    ControllerState × ℕ :=
  if c.det.phase = .ready ∧ c.croppedImage = false
      ∧ c.det.isCapturing = false then
    takeAndCropPhoto c captureSucceeds
  else (c, 0)

/-- Photo orientation values mapped by rotationByOrientation in
NewIDScanner. -/
inductive Orient where
  | portrait
  | portraitUpsideDown
  | landscapeLeft
  | landscapeRight
deriving DecidableEq, Repr

/-- Rotation table rotationByOrientation of NewIDScanner. -/
def rotationByOrientation : Orient → ℕ
  | .portrait => 0
  | .portraitUpsideDown => 180
  | .landscapeLeft => 90
  | .landscapeRight => 270

/-- Dimension-swap test of the iOS branch of takeAndCropPhoto: the
photo orientation is one of the two landscape values. -/
def needsSwapIOS (o : Orient) : Bool :=
  match o with
  | .landscapeLeft => true
  | .landscapeRight => true
  | _ => false

/-- Effective post-rotation dimensions used by the iOS branch of
takeAndCropPhoto: raw width and height are swapped exactly for the
landscape orientations. -/
def effectiveDims (w h : ℕ) (o : Orient) : ℕ × ℕ :=
  if needsSwapIOS o then (h, w) else (w, h)

/-- Cover-fit crop mapping of takeAndCropPhoto in VisionCropCamera,
parametrized over the already-oriented image dimensions, the camera
layout and the frame rectangle. -/
def visionCropRegion (imageW imageH layoutW layoutH fx fy fw fh : ℚ) :
    CropRegion :=
  let previewAspect := layoutW / layoutH
  let photoAspect := imageW / imageH
  let s : ℚ × ℚ × ℚ × ℚ :=
    if previewAspect < photoAspect then
      let sY := imageH / layoutH
      (sY, sY, (imageW - layoutW * sY) / 2, 0)
    else
      let sX := imageW / layoutW
      (sX, sX, 0, (imageH - layoutH * sX) / 2)
  let cropX := max 0 (fx * s.1 + s.2.2.1)
  let cropY := max 0 (fy * s.2.1 + s.2.2.2)
  let cropW := min (fw * s.1) (imageW - cropX)
  let cropH := min (fh * s.2.1) (imageH - cropY)
  { originX := jround cropX
    originY := jround cropY
    width := jround cropW
    height := jround cropH }

/-- Crop region computed by the iOS branch of takeAndCropPhoto: the
cover mapping applied to the effective post-rotation dimensions. -/
def takeAndCropRegionIOS (photoW photoH : ℕ) (o : Orient)
    (layoutW layoutH fx fy fw fh : ℚ) : CropRegion :=
  let d := effectiveDims photoW photoH o
  visionCropRegion (d.1 : ℚ) (d.2 : ℚ) layoutW layoutH fx fy fw fh

/-! Helper lemmas about rounding, clamping and scaling. -/

theorem jround_nonneg {q : ℚ} (h : 0 ≤ q) : 0 ≤ jround q :=
  Int.floor_nonneg.mpr (by linarith)

theorem jround_zero : jround 0 = 0 := by
  norm_num [jround]

theorem jround_natCast (n : ℕ) : jround (n : ℚ) = n := by
  unfold jround
  rw [show ((n : ℚ) + 1/2) = ((n : ℤ) : ℚ) + 1/2 by push_cast; ring,
    Int.floor_int_add]
  norm_num

theorem grabScale_pos {m : ResizeMode} {pw ph vw vh : ℚ}
    (hpw : 0 < pw) (hph : 0 < ph) (hvw : 0 < vw) (hvh : 0 < vh) :
    0 < grabScale m pw ph vw vh := by
  cases m with
  | cover => exact lt_max_iff.mpr (Or.inl (div_pos hvw hpw))
  | contain => exact lt_min (div_pos hvw hpw) (div_pos hvh hph)

theorem one_div_max_eq {a b : ℚ} (ha : 0 < a) (hb : 0 < b) :
    1 / max a b = min (1/a) (1/b) := by
  rcases le_total a b with h | h
  · rw [max_eq_right h, min_eq_right (one_div_le_one_div_of_le ha h)]
  · rw [max_eq_left h, min_eq_left (one_div_le_one_div_of_le hb h)]

theorem one_div_min_eq {a b : ℚ} (ha : 0 < a) (hb : 0 < b) :
    1 / min a b = max (1/a) (1/b) := by
  rcases le_total a b with h | h
  · rw [min_eq_left h, max_eq_left (one_div_le_one_div_of_le ha h)]
  · rw [min_eq_right h, max_eq_right (one_div_le_one_div_of_le hb h)]

theorem clamp01_nonneg (v : ℚ) : 0 ≤ clamp01 v := le_max_left 0 _

theorem clamp01_le_one (v : ℚ) : clamp01 v ≤ 1 :=
  max_le (by norm_num) (min_le_right v 1)

theorem clampOrigin_bounds (j n : ℤ) (hn : 1 ≤ n) :
    0 ≤ max 0 (min j (n - 1)) ∧ max 0 (min j (n - 1)) ≤ n - 1 :=
  ⟨le_max_left _ _, max_le (by omega) (min_le_right _ _)⟩

theorem clampExtent_bounds (j n a : ℤ) (hj : 0 ≤ j) (ha : a ≤ n - 1) :
    0 ≤ min j (n - a) ∧ a + min j (n - a) ≤ n := by
  refine ⟨le_min hj (by omega), ?_⟩
  have h := min_le_right j (n - a)
  linarith

/-! Claim theorems. -/

/-- C10: every input normalized rectangle, including malformed ones with
components outside the unit interval or with reversed corners, is
accepted, and the rectangle used internally always satisfies
0 ≤ x1 ≤ x2 ≤ 1 and 0 ≤ y1 ≤ y2 ≤ 1. -/
theorem normRect_ordered_in_unit (r : RectPct) :
    0 ≤ (normRect r).x1 ∧ (normRect r).x1 ≤ (normRect r).x2 ∧
    (normRect r).x2 ≤ 1 ∧ 0 ≤ (normRect r).y1 ∧
    (normRect r).y1 ≤ (normRect r).y2 ∧ (normRect r).y2 ≤ 1 := by
  unfold normRect
  refine ⟨le_min (clamp01_nonneg _) (clamp01_nonneg _),
    le_trans (min_le_left _ _) (le_max_left _ _),
    max_le (clamp01_le_one _) (clamp01_le_one _),
    le_min (clamp01_nonneg _) (clamp01_nonneg _),
    le_trans (min_le_left _ _) (le_max_left _ _),
    max_le (clamp01_le_one _) (clamp01_le_one _)⟩

/-- C8: the grabImage crop computation at sensor 1600 by 1200, viewport
400 by 300, the full-viewport rectangle and contain fit returns exactly
the full sensor frame, origin zero with width 1600 and height 1200. -/
theorem grabImage_contain_full_frame_example :
    grabImageCropRegion 1600 1200 400 300 ⟨0, 0, 1, 1⟩ .contain
      = ⟨0, 0, 1600, 1200⟩ := by
  simp only [grabImageCropRegion, grabScale, orFallback, jround]
  norm_num [min_def, max_def]

/-- C4: with hold duration 1000 and grace 300, the event sequence
matched at 0, 500, missed at 600, matched at 700 and 1200 reaches the
ready phase exactly at the step with timestamp 1200 and at no earlier
step: the 100 millisecond false gap is below the grace period and does
not reset the hold clock. -/
theorem debounce_trace_ready_exactly_at_1200 :
    (runEvents initialDetState [(true, 0)]).phase = .holding ∧
    (runEvents initialDetState [(true, 0), (true, 500)]).phase = .holding ∧
    (runEvents initialDetState
      [(true, 0), (true, 500), (false, 600)]).phase = .holding ∧
    (runEvents initialDetState
      [(true, 0), (true, 500), (false, 600), (true, 700)]).phase
      = .holding ∧
    (runEvents initialDetState
      [(true, 0), (true, 500), (false, 600), (true, 700),
        (true, 1200)]).phase = .ready := by
  decide

/-- C7: for identical raw sensor dimensions, the orientations whose
rotation is 90 or 270 degrees yield effective dimensions with width
and height swapped relative to the orientations with rotation 0 or
180, and the iOS crop-region computation applies exactly this swap
before the cover mapping. -/
theorem rotation_90_270_swaps_dims (w h : ℕ) (o : Orient)
    (lw lh fx fy fw fh : ℚ) :
    effectiveDims w h o =
      (if rotationByOrientation o = 90 ∨ rotationByOrientation o = 270
        then (h, w) else (w, h)) ∧
    takeAndCropRegionIOS w h o lw lh fx fy fw fh =
      visionCropRegion ((effectiveDims w h o).1 : ℚ)
        ((effectiveDims w h o).2 : ℚ) lw lh fx fy fw fh := by
  cases o <;>
    simp [effectiveDims, needsSwapIOS, rotationByOrientation,
      takeAndCropRegionIOS]

/-- C6: the capture routine runs the capture operation at most once per
call, is a no-op while the in-flight guard is set (as is the detection
step), and whenever a capture was invoked the resulting detection state
has the guard cleared, the scanning phase and both timers cleared,
whether the capture succeeded or failed. -/
theorem capture_at_most_once (c : ControllerState) (b : Bool) :
    (takeAndCropPhoto c b).2 ≤ 1 ∧
    (c.det.isCapturing = true → takeAndCropPhoto c b = (c, 0)) ∧
    (c.det.isCapturing = true → autoCaptureEffect c b = (c, 0)) ∧
    ((takeAndCropPhoto c b).2 = 1 →
      (takeAndCropPhoto c b).1.det =
        { isCapturing := false, phase := .scanning,
          holdStartTime := none, lastDetectionTime := none }) ∧
    (∀ (matched : Bool) (now : ℤ), c.det.isCapturing = true →
      detStep c.det matched now = c.det) ∧
    (autoCaptureEffect c b).2 ≤ 1 := by
  refine ⟨?_, ?_, ?_, ?_, ?_, ?_⟩
  · unfold takeAndCropPhoto
    split <;> simp
  · intro hcap
    unfold takeAndCropPhoto
    rw [if_pos (Or.inr hcap)]
  · intro hcap
    unfold autoCaptureEffect
    split
    · unfold takeAndCropPhoto
      rw [if_pos (Or.inr hcap)]
    · rfl
  · intro hone
    unfold takeAndCropPhoto at hone ⊢
    by_cases hg : c.cameraPresent = false ∨ c.det.isCapturing = true
    · rw [if_pos hg] at hone
      simp at hone
    · rw [if_neg hg]
      simp [resetDetection]
  · intro matched now hcap
    unfold detStep onDetectionSuccess onDetectionMissed
    cases matched <;> simp [hcap]
  · unfold autoCaptureEffect takeAndCropPhoto
    split
    · split <;> simp
    · simp

/-- C6 witness: a controller with the in-flight guard set ignores a
repeated ready notification. -/
theorem capture_at_most_once_w :
    takeAndCropPhoto
      ⟨true, ⟨true, .ready, some 0, some 0⟩, false, true⟩ true
      = (⟨true, ⟨true, .ready, some 0, some 0⟩, false, true⟩, 0) :=
  (capture_at_most_once
    ⟨true, ⟨true, .ready, some 0, some 0⟩, false, true⟩ true).2.1 rfl

/-- C1 counterexample: with all dimensions positive, the IDScanner
helper calculateCropRegion returns a region whose origin plus width
exceeds the photo width (the origin is rounded while the width is
measured from the unrounded coordinate), and the grabImage computation
returns a zero width for a sub-half-pixel rectangle, refuting both the
bound originX plus width at most sensorWidth and the bound width at
least one. -/
theorem crop_invariant_counterexample :
    (calculateCropRegion 1000 1000 100 100 (31/20) 0 (1969/20) 100).originX
        + (calculateCropRegion 1000 1000 100 100 (31/20) 0
            (1969/20) 100).width > 1000 ∧
    (grabImageCropRegion 100 100 100 100 ⟨0, 0, 1/2500, 1⟩ .cover).width
      = 0 := by
  constructor
  · simp only [calculateCropRegion, jround]
    norm_num [min_def, max_def]
  · simp only [grabImageCropRegion, grabScale, orFallback, jround]
    norm_num [min_def, max_def]

/-- C1 amended: for positive sensor and viewport dimensions and an
ordered rectangle, the grabImage computation keeps each origin between
zero and the sensor dimension minus one, keeps origin plus extent at
most the sensor dimension, and keeps each extent nonnegative; extents
of at least one pixel are not guaranteed, and the calculateCropRegion
helper can exceed the sensor bound. -/
theorem grabImage_crop_in_bounds (pw ph : ℕ) (lw lh : ℚ) (r : RectPct)
    (m : ResizeMode) (hpw : 0 < pw) (hph : 0 < ph)
    (hlw : 0 < lw) (hlh : 0 < lh) (hx : r.x1 ≤ r.x2) (hy : r.y1 ≤ r.y2) :
    0 ≤ (grabImageCropRegion pw ph lw lh r m).originX ∧
    (grabImageCropRegion pw ph lw lh r m).originX ≤ (pw : ℤ) - 1 ∧
    (grabImageCropRegion pw ph lw lh r m).originX
      + (grabImageCropRegion pw ph lw lh r m).width ≤ (pw : ℤ) ∧
    0 ≤ (grabImageCropRegion pw ph lw lh r m).width ∧
    0 ≤ (grabImageCropRegion pw ph lw lh r m).originY ∧
    (grabImageCropRegion pw ph lw lh r m).originY ≤ (ph : ℤ) - 1 ∧
    (grabImageCropRegion pw ph lw lh r m).originY
      + (grabImageCropRegion pw ph lw lh r m).height ≤ (ph : ℤ) ∧
    0 ≤ (grabImageCropRegion pw ph lw lh r m).height := by
  have hpwQ : (0 : ℚ) < (pw : ℚ) := by exact_mod_cast hpw
  have hphQ : (0 : ℚ) < (ph : ℚ) := by exact_mod_cast hph
  have hpwZ : (1 : ℤ) ≤ (pw : ℤ) := by exact_mod_cast hpw
  have hphZ : (1 : ℤ) ≤ (ph : ℤ) := by exact_mod_cast hph
  have hfw : orFallback lw (pw : ℚ) = lw := if_neg (ne_of_gt hlw)
  have hfh : orFallback lh (ph : ℚ) = lh := if_neg (ne_of_gt hlh)
  simp only [grabImageCropRegion, hfw, hfh]
  have hs : 0 < grabScale m (pw : ℚ) (ph : ℚ) lw lh :=
    grabScale_pos hpwQ hphQ hlw hlh
  have hjw : 0 ≤ jround ((r.x2 - r.x1) * lw
      / grabScale m (pw : ℚ) (ph : ℚ) lw lh) :=
    jround_nonneg
      (div_nonneg (mul_nonneg (sub_nonneg.mpr hx) hlw.le) hs.le)
  have hjh : 0 ≤ jround ((r.y2 - r.y1) * lh
      / grabScale m (pw : ℚ) (ph : ℚ) lw lh) :=
    jround_nonneg
      (div_nonneg (mul_nonneg (sub_nonneg.mpr hy) hlh.le) hs.le)
  have hoX := clampOrigin_bounds
    (jround ((r.x1 * lw - (lw - (pw : ℚ)
      * grabScale m (pw : ℚ) (ph : ℚ) lw lh) / 2)
      / grabScale m (pw : ℚ) (ph : ℚ) lw lh)) (pw : ℤ) hpwZ
  have hoY := clampOrigin_bounds
    (jround ((r.y1 * lh - (lh - (ph : ℚ)
      * grabScale m (pw : ℚ) (ph : ℚ) lw lh) / 2)
      / grabScale m (pw : ℚ) (ph : ℚ) lw lh)) (ph : ℤ) hphZ
  have heX := clampExtent_bounds
    (jround ((r.x2 - r.x1) * lw / grabScale m (pw : ℚ) (ph : ℚ) lw lh))
    (pw : ℤ) _ hjw hoX.2
  have heY := clampExtent_bounds
    (jround ((r.y2 - r.y1) * lh / grabScale m (pw : ℚ) (ph : ℚ) lw lh))
    (ph : ℤ) _ hjh hoY.2
  exact ⟨hoX.1, hoX.2, heX.2, heX.1, hoY.1, hoY.2, heY.2, heY.1⟩

/-- C1 witness: the grabImage bounds at a concrete positive input. -/
theorem grabImage_crop_in_bounds_w :
    0 ≤ (grabImageCropRegion 100 100 100 100
        ⟨1/10, 3/10, 9/10, 7/10⟩ .cover).originX ∧
    (grabImageCropRegion 100 100 100 100
        ⟨1/10, 3/10, 9/10, 7/10⟩ .cover).originX ≤ (100 : ℤ) - 1 ∧
    (grabImageCropRegion 100 100 100 100
        ⟨1/10, 3/10, 9/10, 7/10⟩ .cover).originX
      + (grabImageCropRegion 100 100 100 100
          ⟨1/10, 3/10, 9/10, 7/10⟩ .cover).width ≤ (100 : ℤ) ∧
    0 ≤ (grabImageCropRegion 100 100 100 100
        ⟨1/10, 3/10, 9/10, 7/10⟩ .cover).width ∧
    0 ≤ (grabImageCropRegion 100 100 100 100
        ⟨1/10, 3/10, 9/10, 7/10⟩ .cover).originY ∧
    (grabImageCropRegion 100 100 100 100
        ⟨1/10, 3/10, 9/10, 7/10⟩ .cover).originY ≤ (100 : ℤ) - 1 ∧
    (grabImageCropRegion 100 100 100 100
        ⟨1/10, 3/10, 9/10, 7/10⟩ .cover).originY
      + (grabImageCropRegion 100 100 100 100
          ⟨1/10, 3/10, 9/10, 7/10⟩ .cover).height ≤ (100 : ℤ) ∧
    0 ≤ (grabImageCropRegion 100 100 100 100
        ⟨1/10, 3/10, 9/10, 7/10⟩ .cover).height :=
  grabImage_crop_in_bounds 100 100 100 100 ⟨1/10, 3/10, 9/10, 7/10⟩
    .cover (by norm_num) (by norm_num) (by norm_num) (by norm_num)
    (by norm_num) (by norm_num)

/-- C2 counterexample: for the cover fit at sensor 1600 by 1200 and
viewport 400 by 400, the sensor-per-viewport factor of the grabImage
mapping is 3, not the claimed maximum of the per-axis ratios, which
is 4. -/
theorem cover_scale_not_max :
    sensorPerViewport .cover 1600 1200 400 400
      ≠ max ((1600 : ℚ)/400) ((1200 : ℚ)/400) := by
  simp only [sensorPerViewport, grabScale]
  norm_num [max_def, min_def]

/-- C2 amended: for positive dimensions the sensor-per-viewport factor
of the grabImage mapping is the minimum of the per-axis
sensor-over-viewport ratios for the cover fit and their maximum for the
contain fit, the opposite of the claimed assignment, and the mapping
has the affine form offset plus coordinate times factor with the
centering offset. -/
theorem sensorPerViewport_characterized (pw ph vw vh : ℚ)
    (hpw : 0 < pw) (hph : 0 < ph) (hvw : 0 < vw) (hvh : 0 < vh) :
    sensorPerViewport .cover pw ph vw vh = min (pw/vw) (ph/vh) ∧
    sensorPerViewport .contain pw ph vw vh = max (pw/vw) (ph/vh) ∧
    ∀ (m : ResizeMode) (x : ℚ),
      grabMapX m pw ph vw vh x =
        (pw - vw * sensorPerViewport m pw ph vw vh) / 2
          + x * sensorPerViewport m pw ph vw vh := by
  refine ⟨?_, ?_, ?_⟩
  · rw [sensorPerViewport, grabScale,
      one_div_max_eq (div_pos hvw hpw) (div_pos hvh hph),
      one_div_div, one_div_div]
  · rw [sensorPerViewport, grabScale,
      one_div_min_eq (div_pos hvw hpw) (div_pos hvh hph),
      one_div_div, one_div_div]
  · intro m x
    have hs : 0 < grabScale m pw ph vw vh := grabScale_pos hpw hph hvw hvh
    unfold grabMapX sensorPerViewport
    field_simp
    ring

/-- C2 witness: the characterization at a concrete cover-fit input. -/
theorem sensorPerViewport_characterized_w :
    sensorPerViewport .cover 1600 1200 400 400
        = min ((1600 : ℚ)/400) ((1200 : ℚ)/400) ∧
    grabMapX .cover 1600 1200 400 400 200 =
      (1600 - 400 * sensorPerViewport .cover 1600 1200 400 400) / 2
        + 200 * sensorPerViewport .cover 1600 1200 400 400 :=
  ⟨(sensorPerViewport_characterized 1600 1200 400 400 (by norm_num)
      (by norm_num) (by norm_num) (by norm_num)).1,
    (sensorPerViewport_characterized 1600 1200 400 400 (by norm_num)
      (by norm_num) (by norm_num) (by norm_num)).2.2 .cover 200⟩

/-- C3 counterexample: from the reachable ready state produced by the
C4 trace, a missed-detection step 300 milliseconds after the last
detection returns the machine to scanning without any reset call, so
the ready phase is not sticky under step inputs. -/
theorem ready_not_sticky :
    (runEvents initialDetState
      [(true, 0), (true, 500), (false, 600), (true, 700),
        (true, 1200)]).phase = .ready ∧
    (detStep (runEvents initialDetState
      [(true, 0), (true, 500), (false, 600), (true, 700),
        (true, 1200)]) false 1500).phase = .scanning := by
  decide

/-- C3 amended: a ready state with a running hold timer stays ready
under every matched step and under missed steps within the grace
period, but a missed step at or past the grace period returns it to
scanning with both timers cleared; the reset of the capture routine
always yields scanning with the guard and both timers cleared. -/
theorem ready_phase_transitions (s : DetState) (now h : ℤ)
    (hph : s.phase = .ready) (hcap : s.isCapturing = false)
    (hhold : s.holdStartTime = some h) :
    (onDetectionSuccess s now).phase = .ready ∧
    (missedElapsed s now < DETECTION_GRACE_MS →
      onDetectionMissed s now = s) ∧
    (DETECTION_GRACE_MS ≤ missedElapsed s now →
      onDetectionMissed s now =
        { isCapturing := false, phase := .scanning,
          holdStartTime := none, lastDetectionTime := none }) ∧
    resetDetection s =
      { isCapturing := false, phase := .scanning,
        holdStartTime := none, lastDetectionTime := none } := by
  refine ⟨?_, ?_, ?_, ?_⟩
  · unfold onDetectionSuccess
    rw [if_neg (by simp [hcap])]
    simp only [hhold]
    split <;> simp [hph]
  · intro hlt
    unfold onDetectionMissed
    rw [if_neg (by simp [hcap]), hhold]
    simp only
    rw [if_neg (by omega)]
  · intro hge
    unfold onDetectionMissed
    rw [if_neg (by simp [hcap]), hhold]
    simp only
    rw [if_pos hge, hcap]
  · rw [resetDetection]

/-- C3 witness: the ready transitions at a concrete ready state. -/
theorem ready_phase_transitions_w :
    (onDetectionSuccess ⟨false, .ready, some 0, some 0⟩ 400).phase
        = .ready ∧
    onDetectionMissed ⟨false, .ready, some 0, some 0⟩ 400 =
      { isCapturing := false, phase := .scanning,
        holdStartTime := none, lastDetectionTime := none } :=
  ⟨(ready_phase_transitions ⟨false, .ready, some 0, some 0⟩ 400 0
      rfl rfl rfl).1,
    (ready_phase_transitions ⟨false, .ready, some 0, some 0⟩ 400 0
      rfl rfl rfl).2.2.1 (by decide)⟩

/-- C5 counterexample: with an unmeasured viewport, the grabImage
computation returns the default rectangle mapped onto the sensor at
unit scale, not the full-sensor-frame crop region claimed as the
fallback. -/
theorem unmeasured_fallback_not_full_frame :
    grabImageCropRegion 1000 1000 0 0 ⟨1/10, 3/10, 9/10, 7/10⟩ .cover
        = ⟨100, 300, 800, 400⟩ ∧
    (⟨100, 300, 800, 400⟩ : CropRegion) ≠ ⟨0, 0, 1000, 1000⟩ := by
  constructor
  · simp only [grabImageCropRegion, grabScale, orFallback, jround]
    norm_num [min_def, max_def]
  · decide

/-- C5 amended: the computation is total, so an unmeasured viewport
never raises an exception; the fallback substitutes the photo
dimensions for the zero layout, which makes the preview scale one, and
the resulting region equals the full sensor frame exactly when the
rectangle is the full viewport, while a proper sub-rectangle is mapped
at unit scale instead of producing the full frame. -/
theorem unmeasured_viewport_fallback (pw ph : ℕ) (r : RectPct)
    (m : ResizeMode) (hpw : 0 < pw) (hph : 0 < ph) :
    grabImageCropRegion pw ph 0 0 r m
        = grabImageCropRegion pw ph (pw : ℚ) (ph : ℚ) r m ∧
    grabScale m (pw : ℚ) (ph : ℚ) (pw : ℚ) (ph : ℚ) = 1 ∧
    grabImageCropRegion pw ph 0 0 ⟨0, 0, 1, 1⟩ m
        = ⟨0, 0, (pw : ℤ), (ph : ℤ)⟩ := by
  have hpwQ : ((pw : ℚ)) ≠ 0 := by
    exact_mod_cast Nat.pos_iff_ne_zero.mp hpw
  have hphQ : ((ph : ℚ)) ≠ 0 := by
    exact_mod_cast Nat.pos_iff_ne_zero.mp hph
  have hsc : grabScale m (pw : ℚ) (ph : ℚ) (pw : ℚ) (ph : ℚ) = 1 := by
    cases m <;> simp [grabScale, div_self hpwQ, div_self hphQ]
  refine ⟨?_, hsc, ?_⟩
  · simp [grabImageCropRegion, orFallback]
  · have h1 : (1 : ℤ) ≤ (pw : ℤ) := by exact_mod_cast hpw
    have h2 : (1 : ℤ) ≤ (ph : ℤ) := by exact_mod_cast hph
    have horW : orFallback 0 (pw : ℚ) = (pw : ℚ) := by simp [orFallback]
    have horH : orFallback 0 (ph : ℚ) = (ph : ℚ) := by simp [orFallback]
    simp only [grabImageCropRegion, horW, horH, hsc]
    simp only [mul_one, sub_self, zero_div, zero_mul, sub_zero, div_one,
      one_mul, jround_zero, jround_natCast]
    congr 1 <;> omega

/-- C5 witness: the unmeasured-viewport fallback at a concrete photo
size, including the full-frame result for the full-viewport
rectangle. -/
theorem unmeasured_viewport_fallback_w :
    grabImageCropRegion 1000 1000 0 0 ⟨1/10, 3/10, 9/10, 7/10⟩ .cover
        = grabImageCropRegion 1000 1000 (1000 : ℚ) (1000 : ℚ)
            ⟨1/10, 3/10, 9/10, 7/10⟩ .cover ∧
    grabImageCropRegion 1000 1000 0 0 ⟨0, 0, 1, 1⟩ .cover
        = ⟨0, 0, (1000 : ℤ), (1000 : ℤ)⟩ :=
  ⟨(unmeasured_viewport_fallback 1000 1000 ⟨1/10, 3/10, 9/10, 7/10⟩
      .cover (by norm_num) (by norm_num)).1,
    (unmeasured_viewport_fallback 1000 1000 ⟨1/10, 3/10, 9/10, 7/10⟩
      .cover (by norm_num) (by norm_num)).2.2⟩

/-- C9 counterexample: the elapsed value used by the grace comparison
of onDetectionMissed at an out-of-order timestamp is negative, not
clamped to zero: one hundred milliseconds before the last detection it
evaluates to minus one hundred. -/
theorem missed_elapsed_negative :
    missedElapsed ⟨false, .holding, some 500, some 500⟩ 400 = -100 ∧
    ¬ 0 ≤ missedElapsed ⟨false, .holding, some 500, some 500⟩ 400 := by
  decide

/-- C9 amended: the callbacks never clamp, and the elapsed value can be
negative; but because both thresholds are positive and compared with
at-least, a step whose timestamp precedes the recorded hold-start or
last-detection timestamp yields the same phase as the corresponding
call with zero elapsed time, and both callbacks are total, so no
negative-duration step can fail. -/
theorem out_of_order_same_as_zero_elapsed (s : DetState) (now h l : ℤ)
    (hh : s.holdStartTime = some h) (hl : s.lastDetectionTime = some l) :
    (now ≤ h →
      (onDetectionSuccess s now).phase = (onDetectionSuccess s h).phase) ∧
    (now ≤ l → onDetectionMissed s now = onDetectionMissed s l) := by
  constructor
  · intro hle
    unfold onDetectionSuccess
    cases hc : s.isCapturing
    · simp only [hc, Bool.false_eq_true, if_false, hh]
      rw [if_neg (by unfold HOLD_DURATION_MS; omega),
        if_neg (by unfold HOLD_DURATION_MS; omega)]
    · simp [hc]
  · intro hle
    unfold onDetectionMissed missedElapsed
    cases hc : s.isCapturing
    · simp only [hc, Bool.false_eq_true, if_false, hh, hl]
      simp only [Option.getD_some]
      rw [if_neg (by unfold DETECTION_GRACE_MS; omega),
        if_neg (by unfold DETECTION_GRACE_MS; omega)]
    · simp [hc]

/-- C9 witness: an out-of-order success and missed step at a concrete
holding state agree with the zero-elapsed calls. -/
theorem out_of_order_same_as_zero_elapsed_w :
    (onDetectionSuccess ⟨false, .holding, some 500, some 500⟩ 400).phase
        = (onDetectionSuccess ⟨false, .holding, some 500, some 500⟩
            500).phase ∧
    onDetectionMissed ⟨false, .holding, some 500, some 500⟩ 400
        = onDetectionMissed ⟨false, .holding, some 500, some 500⟩ 500 :=
  ⟨(out_of_order_same_as_zero_elapsed ⟨false, .holding, some 500, some 500⟩
      400 500 500 rfl rfl).1 (by norm_num),
    (out_of_order_same_as_zero_elapsed ⟨false, .holding, some 500, some 500⟩
      400 500 500 rfl rfl).2 (by norm_num)⟩
